import Mathlib

-- Shallow embedding of the WhatsApp group inventory bot (src/app.py).
-- Text handling models Python str operations over lists of characters;
-- the Firestore-backed tables become explicit in-memory association lists.

/-- Python-style ASCII whitespace test, as used by str.strip(). -/
def pyIsSpace (c : Char) : Bool :=
  c == ' ' || c == '\t' || c == '\n' || c == '\r' || c == '\x0b' || c == '\x0c'

/-- Models Python str.lower() on ASCII text. -/
def lowerChars (l : List Char) : List Char := l.map Char.toLower

/-- Removes trailing whitespace. -/
def stripTrailing (l : List Char) : List Char := (l.reverse.dropWhile pyIsSpace).reverse

/-- Models Python str.strip(): drop leading and trailing whitespace. -/
def stripChars (l : List Char) : List Char := stripTrailing (l.dropWhile pyIsSpace)

/-- Models Python str.startswith. -/
def startsWithL : List Char → List Char → Bool
  | [], _ => true
  | _ :: _, [] => false
  | p :: ps, x :: xs => p == x && startsWithL ps xs

/-- Models the Python test `c in s` for a single character. -/
def containsChar (c : Char) : List Char → Bool
  | [] => false
  | x :: xs => x == c || containsChar c xs

/-- Models Python s.split(sep, 1): split at the first occurrence of `c`;
`none` when `c` does not occur (the source always guards this case with
an `in` test whose failure produces a format-hint reply). -/
def splitOnceL (c : Char) : List Char → Option (List Char × List Char)
  | [] => none
  | x :: xs =>
    if x == c then some ([], xs)
    else match splitOnceL c xs with
      | none => none
      | some p => some (x :: p.1, p.2)

/-- Accumulator worker for `splitL`. -/
def splitListL (c : Char) : List Char → List Char → List (List Char)
  | [], acc => [acc.reverse]
  | x :: xs, acc => if x == c then acc.reverse :: splitListL c xs [] else splitListL c xs (x :: acc)

/-- Models Python s.split(sep) for one-character separators. -/
def splitL (c : Char) (l : List Char) : List (List Char):= splitListL c l []

/-- Base-10 digit-string value; `none` on any non-digit character. -/
def digitsVal : List Char → Nat → Option Nat
  | [], acc => some acc
  | c :: cs, acc => if c.isDigit then digitsVal cs (acc * 10 + (c.toNat - 48)) else none

/-- Models Python int() on ASCII decimal literals: surrounding whitespace,
an optional sign, then one or more digits (underscore separators and
non-ASCII digits are not modelled; no claim depends on them). -/
def pyIntL (l : List Char) : Option Int :=
  match stripChars l with
  | [] => none
  | '+' :: rest => if rest = [] then none else (digitsVal rest 0).map Int.ofNat
  | '-' :: rest => if rest = [] then none else (digitsVal rest 0).map (fun n => -(n : Int))
  | rest => (digitsVal rest 0).map Int.ofNat

/-- One `group_members` document: keyed by phone number. -/
structure Member where
  phone_number : String
  name : String
  is_active : Bool
deriving Repr, DecidableEq

/-- One `inventory_updates` document, mirroring add_inventory_update's fields
(the server timestamp is not modelled). -/
structure AuditRecord where
  user_phone : String
  user_name : String
  action : String
  item_name : Option String
  quantity : Option Int
  description : Option String
deriving Repr, DecidableEq

/-- The Firestore-backed state: `inventory`, `group_members` and
`inventory_updates` collections. Document ids (item name, phone number)
are unique, so association lists by that key. -/
structure BotState where
  inventory : List (String × Int)
  members : List Member
  updates : List AuditRecord
deriving Repr, DecidableEq

/-- Lookup of an inventory document by item name. -/
def lookupQty : List (String × Int) → String → Option Int
  | [], _ => none
  | p :: ps, k => if p.1 = k then some p.2 else lookupQty ps k

/-- Firestore document set (upsert by id). -/
def setQty : List (String × Int) → String → Int → List (String × Int)
  | [], k, v => [(k, v)]
  | p :: ps, k, v => if p.1 = k then (k, v) :: ps else p :: setQty ps k v

/-- Firestore document delete (ids are unique, so removal by key). -/
def removeQty : List (String × Int) → String → List (String × Int)
  | [], _ => []
  | p :: ps, k => if p.1 = k then removeQty ps k else p :: removeQty ps k

/-- FirebaseManager.get_inventory_item: quantity of the document, 0 if absent. -/
def get_inventory_item (st : BotState) (item : String) : Int :=
  (lookupQty st.inventory item).getD 0

/-- FirebaseManager.update_inventory: set the document for `item`. -/
def update_inventory (st : BotState) (item : String) (qty : Int) : BotState :=
  { st with inventory := setQty st.inventory item qty }

/-- FirebaseManager.delete_inventory_item. -/
def delete_inventory_item (st : BotState) (item : String) : BotState :=
  { st with inventory := removeQty st.inventory item }

/-- FirebaseManager.clear_inventory: delete every inventory document. -/
def clear_inventory (st : BotState) : BotState := { st with inventory := [] }

/-- FirebaseManager.get_inventory: documents with quantity strictly above 0. -/
def get_inventory (st : BotState) : List (String × Int) :=
  st.inventory.filter (fun p => decide (0 < p.2))

/-- FirebaseManager.add_inventory_update: append-only audit log. -/
def add_inventory_update (st : BotState) (r : AuditRecord) : BotState :=
  { st with updates := st.updates ++ [r] }

/-- Lookup of a member document by phone number. -/
def findMember : List Member → String → Option Member
  | [], _ => none
  | m :: ms, p => if m.phone_number = p then some m else findMember ms p

/-- Document set for group_members (upsert by phone number). -/
def upsertMember : List Member → Member → List Member
  | [], m => [m]
  | x :: xs, m => if x.phone_number = m.phone_number then m :: xs else x :: upsertMember xs m

/-- FirebaseManager.remove_group_member: update is_active to False. -/
def deactivateMember : List Member → String → List Member
  | [], _ => []
  | x :: xs, p =>
    if x.phone_number = p then { x with is_active := false } :: xs
    else x :: deactivateMember xs p

/-- FirebaseManager.is_group_member: document exists and is_active. -/
def is_group_member (st : BotState) (phone : String) : Bool :=
  match findMember st.members phone with
  | some m => m.is_active
  | none => false

/-- FirebaseManager.add_group_member. -/
def add_group_member (st : BotState) (phone nm : String) : BotState :=
  { st with members := upsertMember st.members ⟨phone, nm, true⟩ }

/-- FirebaseManager.remove_group_member on the state. -/
def remove_group_member (st : BotState) (phone : String) : BotState :=
  { st with members := deactivateMember st.members phone }

/-- FirebaseManager.get_group_members: the active members. -/
def get_group_members (st : BotState) : List Member :=
  st.members.filter (fun m => m.is_active)

/-- The static admin allow-list from the top of app.py. -/
def GROUP_ADMINS : List (String × String) := [("9779816034951", "Admin User 1")]

/-- Dictionary lookup in GROUP_ADMINS. -/
def lookupAdmin : List (String × String) → String → Option String
  | [], _ => none
  | p :: ps, k => if p.1 = k then some p.2 else lookupAdmin ps k

/-- is_group_admin: membership in the GROUP_ADMINS dictionary. -/
def is_group_admin (phone : String) : Bool := (lookupAdmin GROUP_ADMINS phone).isSome

/-- GROUP_ADMINS.get(sender_number, f"User {sender_number[-4:]}"). -/
def sender_display_name (phone : String) : String :=
  match lookupAdmin GROUP_ADMINS phone with
  | some n => n
  | none => "User " ++ String.mk (phone.data.drop (phone.data.length - 4))

/-- broadcast_to_group's return value: sends are modelled as succeeding, so
the count of active members other than the excluded sender. -/
def broadcast_count (st : BotState) (exclude : String) : Nat :=
  ((get_group_members st).filter (fun m => !(m.phone_number == exclude))).length

/-- The static help text returned by the `help` command. -/
def helpText : String :=
  "🤖 *WhatsApp Group Inventory Bot*\n\n👥 *Group Commands:*\n• join - Join the inventory group\n• leave - Leave the group\n• members - Show group members\n• broadcast <message> - Send to all members (admin only)\n\n📦 *Inventory Commands:*\n• inventory - Show current stock\n• add apple=5 - Add items to stock\n• sell banana=3 - Remove items from stock\n• history - Show recent updates\n• apple=10, banana=5 - Initialize inventory\n\n🔧 *Admin Commands:*\n• reset - Clear all inventory (admin only)\n• remove apple - Remove item completely (admin only)\n\n💡 *Examples:*\n• apple=10, banana=5, orange=8\n• add apple=5\n• sell banana=3"

/-- Insertion step for the lexicographic sort used by `sorted(inventory.items())`. -/
def sortInsert (p : String × Int) : List (String × Int) → List (String × Int)
  | [] => [p]
  | q :: qs => if p.1 ≤ q.1 then p :: q :: qs else q :: sortInsert p qs

/-- sorted(...) by item name (keys are unique document ids). -/
def sortByKey : List (String × Int) → List (String × Int)
  | [] => []
  | p :: ps => sortInsert p (sortByKey ps)

/-- The (item, quantity) rows of the `inventory` reply, in display order. -/
def inventory_pairs (st : BotState) : List (String × Int) := sortByKey (get_inventory st)

/-- The `inventory` command reply. -/
def show_inventory_reply (st : BotState) : String :=
  if get_inventory st = [] then "📦 Inventory is empty"
  else
    "📦 *Current Inventory:*\n"
      ++ String.join ((inventory_pairs st).map (fun p => "• " ++ p.1 ++ ": " ++ toString p.2 ++ "\n"))
      ++ "\n📊 Total items: " ++ toString ((inventory_pairs st).foldl (fun a p => a + p.2) 0)

/-- One line of the `members` reply (enumerate starts at 1). -/
def member_line (i : Nat) (m : Member) : String :=
  toString (i + 1) ++ ". " ++ m.name
    ++ (if is_group_admin m.phone_number then " 👑" else "") ++ "\n"

/-- The `members` command reply. -/
def members_reply (st : BotState) : String :=
  let members := get_group_members st
  if members = [] then "👥 No members in the group"
  else
    "👥 *Group Members (" ++ toString members.length ++ "):*\n"
      ++ String.join (members.enum.map (fun p => member_line p.1 p.2))

/-- FirebaseManager.get_recent_updates: latest first, bounded. -/
def get_recent_updates (st : BotState) (limit : Nat) : List AuditRecord :=
  st.updates.reverse.take limit

/-- One line of the `history` reply. Timestamps are not modelled, so the
`at HH:MM` suffix never appears; Python truthiness skips empty item names
and zero quantities. -/
def history_line (u : AuditRecord) : String :=
  "• " ++ u.user_name ++ " " ++ u.action
    ++ (match u.item_name with
        | some i => if i ≠ "" then " " ++ i else ""
        | none => "")
    ++ (match u.quantity with
        | some q => if q ≠ 0 then " (" ++ toString q ++ ")" else ""
        | none => "")
    ++ "\n"

/-- The `history` command reply. -/
def history_reply (st : BotState) : String :=
  let updates := get_recent_updates st 8
  if updates = [] then "📋 No inventory updates yet"
  else "📋 *Recent Updates:*\n" ++ String.join (updates.map history_line)

/-- The `join` branch of process_group_inventory_command. -/
def join_branch (sender_number sender_name : String) (st : BotState) : String × BotState :=
  if is_group_member st sender_number = false then
    ("✅ " ++ sender_name ++ " joined the inventory group!\n👥 Total members: "
        ++ toString (get_group_members (add_group_member st sender_number sender_name)).length
        ++ "\nType \x27help\x27 for commands.",
      add_inventory_update (add_group_member st sender_number sender_name)
        ⟨sender_number, sender_name, "join", none, none, some "Joined the group"⟩)
  else ("✅ You\x27re already in the group!", st)

/-- The `leave` branch. -/
def leave_branch (sender_number sender_name : String) (st : BotState) : String × BotState :=
  if is_group_member st sender_number then
    ("✅ You left the inventory group",
      add_inventory_update (remove_group_member st sender_number)
        ⟨sender_number, sender_name, "leave", none, none, some "Left the group"⟩)
  else ("❌ You\x27re not in the group", st)

/-- The `broadcast ` branch; `broadcast_msg` is message_text[10:].strip(). -/
def broadcast_branch (broadcast_msg : List Char) (sender_number sender_name : String)
    (st : BotState) : String × BotState :=
  if is_group_admin sender_number = false then ("❌ Only admins can broadcast messages", st)
  else if broadcast_msg = [] then ("❌ Usage: broadcast <your message>", st)
  else
    ("✅ Message sent to " ++ toString (broadcast_count st sender_number) ++ " members",
      add_inventory_update st
        ⟨sender_number, sender_name, "broadcast", none, none,
          some ("Broadcast message to " ++ toString (broadcast_count st sender_number) ++ " members")⟩)

/-- The `reset` branch. -/
def reset_branch (sender_number sender_name : String) (st : BotState) : String × BotState :=
  if is_group_admin sender_number = false then ("❌ Only admins can reset inventory", st)
  else
    ("✅ Inventory reset successfully",
      add_inventory_update (clear_inventory st)
        ⟨sender_number, sender_name, "reset", none, none, some "Reset all inventory"⟩)

/-- The `remove ` branch; `item_chars` is message_text[7:].strip(). -/
def remove_branch (item_chars : List Char) (sender_number sender_name : String)
    (st : BotState) : String × BotState :=
  if is_group_admin sender_number = false then ("❌ Only admins can remove items", st)
  else if item_chars = [] then ("❌ Usage: remove apple", st)
  else if get_inventory_item st (String.mk item_chars) > 0 then
    ("✅ Removed " ++ String.mk item_chars ++ " from inventory",
      add_inventory_update (delete_inventory_item st (String.mk item_chars))
        ⟨sender_number, sender_name, "remove", some (String.mk item_chars), none,
          some ("Removed " ++ String.mk item_chars ++ " from inventory")⟩)
  else ("❌ " ++ String.mk item_chars ++ " not found in inventory", st)

/-- The `add ` branch; `item_data` is message_text[4:].strip(). A single
item=qty pair: split at the first `=`; int() failure is the caught
ValueError path. -/
def add_branch (item_data : List Char) (sender_number sender_name : String)
    (st : BotState) : String × BotState :=
  match splitOnceL '=' item_data with
  | none => ("❌ Format: add apple=5", st)
  | some pr =>
    match pyIntL pr.2 with
    | none => ("❌ Invalid quantity. Use numbers only.", st)
    | some quantity =>
      if quantity ≤ 0 then ("❌ Quantity must be positive", st)
      else
        ("✅ Added " ++ toString quantity ++ " " ++ String.mk (stripChars pr.1)
            ++ "(s)\n📦 New quantity: "
            ++ toString (get_inventory_item st (String.mk (stripChars pr.1)) + quantity),
          add_inventory_update
            (update_inventory st (String.mk (stripChars pr.1))
              (get_inventory_item st (String.mk (stripChars pr.1)) + quantity))
            ⟨sender_number, sender_name, "add", some (String.mk (stripChars pr.1)), some quantity,
              some ("Added " ++ toString quantity ++ " " ++ String.mk (stripChars pr.1) ++ "(s)")⟩)

/-- The `sell ` branch; `item_data` is message_text[5:].strip(). -/
def sell_branch (item_data : List Char) (sender_number sender_name : String)
    (st : BotState) : String × BotState :=
  match splitOnceL '=' item_data with
  | none => ("❌ Format: sell apple=3", st)
  | some pr =>
    match pyIntL pr.2 with
    | none => ("❌ Invalid quantity. Use numbers only.", st)
    | some quantity =>
      if quantity ≤ 0 then ("❌ Quantity must be positive", st)
      else if get_inventory_item st (String.mk (stripChars pr.1)) = 0 then
        ("❌ " ++ String.mk (stripChars pr.1) ++ " not found in inventory", st)
      else if get_inventory_item st (String.mk (stripChars pr.1)) < quantity then
        ("❌ Not enough " ++ String.mk (stripChars pr.1) ++ ". Available: "
          ++ toString (get_inventory_item st (String.mk (stripChars pr.1))), st)
      else
        ("✅ Sold " ++ toString quantity ++ " " ++ String.mk (stripChars pr.1)
            ++ "(s)\n📦 Remaining: "
            ++ toString (get_inventory_item st (String.mk (stripChars pr.1)) - quantity),
          add_inventory_update
            (if get_inventory_item st (String.mk (stripChars pr.1)) - quantity = 0 then
              delete_inventory_item st (String.mk (stripChars pr.1))
            else
              update_inventory st (String.mk (stripChars pr.1))
                (get_inventory_item st (String.mk (stripChars pr.1)) - quantity))
            ⟨sender_number, sender_name, "sell", some (String.mk (stripChars pr.1)), some quantity,
              some ("Sold " ++ toString quantity ++ " " ++ String.mk (stripChars pr.1) ++ "(s)")⟩)

/-- Outcome of the initialize loop: either it finished with the list of
`updated_items` strings, or an early `return` fired (negative quantity, or
the caught ValueError from int()); either way the state mutated so far is
kept, matching the non-atomic Python loop. -/
inductive InitResult where
  | ok (st : BotState) (updated : List String)
  | err (st : BotState) (reply : String)
deriving Repr, DecidableEq

/-- The per-segment loop of the initialize branch. -/
def init_loop : BotState → List String → List (List Char) → InitResult
  | st, updated, [] => .ok st updated
  | st, updated, seg :: rest =>
    match splitOnceL '=' seg with
    | none => init_loop st updated rest
    | some pr =>
      match pyIntL pr.2 with
      | none => .err st "❌ Invalid format. Use: apple=5, banana=10"
      | some quantity =>
        if quantity < 0 then
          .err st ("❌ Quantity for " ++ String.mk (stripChars pr.1) ++ " must be non-negative")
        else if quantity = 0 then
          if get_inventory_item st (String.mk (stripChars pr.1)) > 0 then
            init_loop (delete_inventory_item st (String.mk (stripChars pr.1)))
              (updated ++ [String.mk (stripChars pr.1) ++ ": removed"]) rest
          else init_loop st updated rest
        else
          init_loop (update_inventory st (String.mk (stripChars pr.1)) quantity)
            (updated ++ [String.mk (stripChars pr.1) ++ ": " ++ toString quantity]) rest

/-- The state carried by an InitResult. -/
def initState : InitResult → BotState
  | .ok st _ => st
  | .err st _ => st

/-- The bulk initialize branch (`"=" in message_text`). -/
def init_branch (t : List Char) (sender_number sender_name : String)
    (st : BotState) : String × BotState :=
  match init_loop st [] (splitL ',' t) with
  | .err st1 reply => (reply, st1)
  | .ok st1 updated =>
    if updated = [] then ("❌ Invalid format. Use: apple=5, banana=10", st1)
    else
      ("✅ Inventory updated:\n" ++ String.join (updated.map (fun i => "• " ++ i ++ "\n")),
        add_inventory_update st1
          ⟨sender_number, sender_name, "update", none, none, some "Updated inventory items"⟩)

/-- The command dispatch of process_group_inventory_command, applied to the
already lower-cased and stripped text, in the source's elif order. -/
def dispatch (t : List Char) (sender_number : String) (st : BotState) : String × BotState :=
  if t = "join".data then join_branch sender_number (sender_display_name sender_number) st
  else if t = "leave".data then leave_branch sender_number (sender_display_name sender_number) st
  else if is_group_member st sender_number = false then
    ("❌ You must join the group first. Send \x27join\x27 to participate.", st)
  else if t = "help".data then (helpText, st)
  else if t = "members".data then (members_reply st, st)
  else if startsWithL "broadcast ".data t then
    broadcast_branch (stripChars (t.drop 10)) sender_number (sender_display_name sender_number) st
  else if t = "reset".data then reset_branch sender_number (sender_display_name sender_number) st
  else if startsWithL "remove ".data t then
    remove_branch (stripChars (t.drop 7)) sender_number (sender_display_name sender_number) st
  else if t = "inventory".data then (show_inventory_reply st, st)
  else if t = "history".data then (history_reply st, st)
  else if startsWithL "add ".data t then
    add_branch (stripChars (t.drop 4)) sender_number (sender_display_name sender_number) st
  else if startsWithL "sell ".data t then
    sell_branch (stripChars (t.drop 5)) sender_number (sender_display_name sender_number) st
  else if containsChar '=' t then init_branch t sender_number (sender_display_name sender_number) st
  else ("❌ Unknown command. Type \x27help\x27 for available commands.", st)

/-- message_text.lower().strip() followed by the command dispatch: the whole
of process_group_inventory_command, returning (reply, new state). -/
def process_group_inventory_command (message_text sender_number : String)
    (st : BotState) : String × BotState :=
  dispatch (stripChars (lowerChars message_text.data)) sender_number st

/-- A sequence of inbound messages, each (text, sender), folded through the
command processor. -/
def run_commands : List (String × String) → BotState → BotState
  | [], st => st
  | (msg, sender) :: rest, st =>
    run_commands rest (process_group_inventory_command msg sender st).2

/-- The GET side of the webhook route: (body, HTTP status). The source's
`if not verify_token` is Python truthiness: it fires both when the
environment variable is unset (None) and when it is the empty string, so
both cases answer the configuration error with 500. A missing challenge in
the success case makes Flask fail on a None return, modelled as an empty
500. -/
def webhook_get (verify_token : Option String) (mode token challenge : Option String) :
    String × Nat :=
  match verify_token with
  | none => ("VERIFY_TOKEN not configured", 500)
  | some vt =>
    if vt = "" then ("VERIFY_TOKEN not configured", 500)
    else if mode = some "subscribe" ∧ token = some vt then
      match challenge with
      | some ch => (ch, 200)
      | none => ("", 500)
    else ("Verification failed", 403)

/-- Non-negativity of every stored quantity. -/
def nonnegInv (l : List (String × Int)) : Prop := ∀ p ∈ l, 0 ≤ p.2

/-- A plain (non-admin) active member used in concrete scenarios. -/
def exMember : Member := ⟨"111", "User 0111", true⟩

/-- Stock apple 5, banana 2, with one plain member. -/
def exSt : BotState := ⟨[("apple", 5), ("banana", 2)], [exMember], []⟩

/-- Empty stock with one plain member. -/
def exEmpty : BotState := ⟨[], [exMember], []⟩

-- ## Text-handling lemmas

/-- A successful prefix test exposes the tail. -/
theorem startsWithL_ex {p t : List Char} (h : startsWithL p t = true) : ∃ u, t = p ++ u := by
  induction p generalizing t with
  | nil => exact ⟨t, rfl⟩
  | cons a as ih =>
    cases t with
    | nil => simp [startsWithL] at h
    | cons b bs =>
      simp only [startsWithL, Bool.and_eq_true, beq_iff_eq] at h
      obtain ⟨rfl, h2⟩ := h
      obtain ⟨u, rfl⟩ := ih h2
      exact ⟨u, rfl⟩

/-- A list starts with itself. -/
theorem startsWithL_self_append (p u : List Char) : startsWithL p (p ++ u) = true := by
  induction p with
  | nil => rfl
  | cons a as ih => simp [startsWithL, ih]

/-- Two prefixes with different first characters cannot both match. -/
theorem startsWithL_disjoint {a b : Char} {p q t : List Char}
    (hab : a ≠ b) (h : startsWithL (a :: p) t = true) :
    startsWithL (b :: q) t = false := by
  cases t with
  | nil => simp [startsWithL] at h
  | cons c cs =>
    simp only [startsWithL, Bool.and_eq_true, beq_iff_eq] at h
    obtain ⟨rfl, -⟩ := h
    simp [startsWithL, Ne.symm hab]

/-- Prop form of startsWithL_disjoint, shaped for if_neg. -/
theorem not_pre_of_pre {a b : Char} {p q t : List Char} (hab : a ≠ b)
    (h : startsWithL (a :: p) t = true) : ¬ startsWithL (b :: q) t = true := by
  rw [startsWithL_disjoint hab h]; simp

/-- A word carrying a given prefix is not a word refuting that prefix. -/
theorem ne_of_pre {p t : List Char} (l : List Char)
    (hpre : startsWithL p t = true) (hno : startsWithL p l = false) : t ≠ l := by
  intro h
  rw [h, hno] at hpre
  cases hpre

/-- containsChar certifies membership. -/
theorem containsChar_mem {c : Char} {l : List Char} (h : containsChar c l = true) : c ∈ l := by
  induction l with
  | nil => simp [containsChar] at h
  | cons x xs ih =>
    simp only [containsChar, Bool.or_eq_true, beq_iff_eq] at h
    cases h with
    | inl h => subst h; exact List.mem_cons_self x xs
    | inr h => exact List.mem_cons_of_mem x (ih h)

/-- dropWhile distributes over append when the left part keeps a character. -/
theorem dropWhile_append_keep {l : List Char} (r : List Char)
    (h : ∃ c ∈ l, pyIsSpace c = false) :
    List.dropWhile pyIsSpace (l ++ r) = List.dropWhile pyIsSpace l ++ r := by
  induction l with
  | nil => obtain ⟨c, hc, -⟩ := h; simp at hc
  | cons x xs ih =>
    by_cases hx : pyIsSpace x = true
    · obtain ⟨c, hc, hcf⟩ := h
      have hcx : c ∈ xs := by
        cases List.mem_cons.mp hc with
        | inl e => subst e; rw [hx] at hcf; cases hcf
        | inr m => exact m
      simp only [List.cons_append, List.dropWhile_cons, hx, if_true]
      exact ih ⟨c, hcx, hcf⟩
    · have hx' : pyIsSpace x = false := by revert hx; cases pyIsSpace x <;> simp
      simp [List.cons_append, List.dropWhile_cons, hx']

/-- Trailing strip leaves an untouched left part when the right part keeps a
non-space character. -/
theorem stripTrailing_append {v : List Char} (a : List Char)
    (h : ∃ c ∈ v, pyIsSpace c = false) :
    stripTrailing (a ++ v) = a ++ stripTrailing v := by
  unfold stripTrailing
  rw [List.reverse_append]
  rw [dropWhile_append_keep a.reverse
    (by obtain ⟨c, hc, hf⟩ := h; exact ⟨c, List.mem_reverse.mpr hc, hf⟩)]
  rw [List.reverse_append, List.reverse_reverse]

/-- Normalisation (lower-case then strip) keeps a lower-case non-space-leading
prefix when the remainder keeps a non-space character. -/
theorem normalize_pre (x : Char) (xs : List Char) (msg : String) (u : List Char)
    (hmsg : msg.data = (x :: xs) ++ u)
    (hx : pyIsSpace x = false)
    (hlow : lowerChars (x :: xs) = x :: xs)
    (hw : ∃ c ∈ lowerChars u, pyIsSpace c = false) :
    stripChars (lowerChars msg.data) = (x :: xs) ++ stripTrailing (lowerChars u) := by
  rw [hmsg]
  unfold lowerChars at hlow ⊢
  rw [List.map_append, hlow]
  unfold stripChars
  rw [show ((x :: xs) ++ u.map Char.toLower) = x :: (xs ++ u.map Char.toLower) from rfl]
  rw [List.dropWhile_cons, hx]
  simp only [Bool.false_eq_true, if_false]
  rw [show (x :: (xs ++ u.map Char.toLower)) = (x :: xs) ++ u.map Char.toLower from rfl]
  exact stripTrailing_append (x :: xs) hw

-- ## Dispatch navigation lemmas (the elif chain in source order)

/-- A non-member sender on any text other than join/leave hits the
membership gate. -/
theorem dispatch_gate (t : List Char) (sender : String) (st : BotState)
    (h1 : t ≠ "join".data) (h2 : t ≠ "leave".data)
    (h3 : is_group_member st sender = false) :
    dispatch t sender st =
      ("❌ You must join the group first. Send \x27join\x27 to participate.", st) := by
  unfold dispatch
  rw [if_neg h1, if_neg h2, if_pos h3]

/-- Text starting with "add " reaches the add branch for a member sender. -/
theorem dispatch_add_eq (t : List Char) (sender : String) (st : BotState)
    (hm : is_group_member st sender = true)
    (h : startsWithL "add ".data t = true) :
    dispatch t sender st =
      add_branch (stripChars (t.drop 4)) sender (sender_display_name sender) st := by
  unfold dispatch
  rw [if_neg (ne_of_pre _ h (by decide)), if_neg (ne_of_pre _ h (by decide)),
      if_neg (by rw [hm]; simp), if_neg (ne_of_pre _ h (by decide)),
      if_neg (ne_of_pre _ h (by decide)), if_neg (not_pre_of_pre (by decide) h),
      if_neg (ne_of_pre _ h (by decide)), if_neg (not_pre_of_pre (by decide) h),
      if_neg (ne_of_pre _ h (by decide)), if_neg (ne_of_pre _ h (by decide)),
      if_pos h]

/-- Text starting with "sell " reaches the sell branch for a member sender. -/
theorem dispatch_sell_eq (t : List Char) (sender : String) (st : BotState)
    (hm : is_group_member st sender = true)
    (h : startsWithL "sell ".data t = true) :
    dispatch t sender st =
      sell_branch (stripChars (t.drop 5)) sender (sender_display_name sender) st := by
  unfold dispatch
  rw [if_neg (ne_of_pre _ h (by decide)), if_neg (ne_of_pre _ h (by decide)),
      if_neg (by rw [hm]; simp), if_neg (ne_of_pre _ h (by decide)),
      if_neg (ne_of_pre _ h (by decide)), if_neg (not_pre_of_pre (by decide) h),
      if_neg (ne_of_pre _ h (by decide)), if_neg (not_pre_of_pre (by decide) h),
      if_neg (ne_of_pre _ h (by decide)), if_neg (ne_of_pre _ h (by decide)),
      if_neg (not_pre_of_pre (by decide) h), if_pos h]

/-- The exact text "reset" reaches the reset branch for a member sender. -/
theorem dispatch_reset_eq (sender : String) (st : BotState)
    (hm : is_group_member st sender = true) :
    dispatch "reset".data sender st =
      reset_branch sender (sender_display_name sender) st := by
  unfold dispatch
  rw [if_neg (by decide), if_neg (by decide), if_neg (by rw [hm]; simp),
      if_neg (by decide), if_neg (by decide), if_neg (by decide), if_pos rfl]

/-- Text starting with "remove " reaches the remove branch for a member sender. -/
theorem dispatch_remove_eq (t : List Char) (sender : String) (st : BotState)
    (hm : is_group_member st sender = true)
    (h : startsWithL "remove ".data t = true) :
    dispatch t sender st =
      remove_branch (stripChars (t.drop 7)) sender (sender_display_name sender) st := by
  unfold dispatch
  rw [if_neg (ne_of_pre _ h (by decide)), if_neg (ne_of_pre _ h (by decide)),
      if_neg (by rw [hm]; simp), if_neg (ne_of_pre _ h (by decide)),
      if_neg (ne_of_pre _ h (by decide)), if_neg (not_pre_of_pre (by decide) h),
      if_neg (ne_of_pre _ h (by decide)), if_pos h]

/-- Text starting with "broadcast " reaches the broadcast branch for a member
sender. -/
theorem dispatch_broadcast_eq (t : List Char) (sender : String) (st : BotState)
    (hm : is_group_member st sender = true)
    (h : startsWithL "broadcast ".data t = true) :
    dispatch t sender st =
      broadcast_branch (stripChars (t.drop 10)) sender (sender_display_name sender) st := by
  unfold dispatch
  rw [if_neg (ne_of_pre _ h (by decide)), if_neg (ne_of_pre _ h (by decide)),
      if_neg (by rw [hm]; simp), if_neg (ne_of_pre _ h (by decide)),
      if_neg (ne_of_pre _ h (by decide)), if_pos h]

-- ## Association-list and sorting lemmas

/-- After deletion the document is gone. -/
theorem lookupQty_removeQty (l : List (String × Int)) (k : String) :
    lookupQty (removeQty l k) k = none := by
  induction l with
  | nil => rfl
  | cons p ps ih =>
    unfold removeQty
    by_cases h : p.1 = k
    · rw [if_pos h]; exact ih
    · rw [if_neg h]; unfold lookupQty; rw [if_neg h]; exact ih

/-- A key occurring in the list is found by lookup. -/
theorem lookupQty_isSome_of_mem {l : List (String × Int)} {k : String}
    (h : k ∈ l.map Prod.fst) : (lookupQty l k).isSome = true := by
  induction l with
  | nil => simp at h
  | cons p ps ih =>
    unfold lookupQty
    by_cases hp : p.1 = k
    · rw [if_pos hp]; rfl
    · rw [if_neg hp]
      apply ih
      simp only [List.map_cons, List.mem_cons] at h
      cases h with
      | inl e => exact absurd e.symm hp
      | inr m => exact m

/-- A found value comes from an entry of the list. -/
theorem lookupQty_mem {l : List (String × Int)} {k : String} {v : Int}
    (h : lookupQty l k = some v) : ∃ p ∈ l, p.2 = v := by
  induction l with
  | nil => cases h
  | cons q qs ih =>
    unfold lookupQty at h
    by_cases hq : q.1 = k
    · rw [if_pos hq] at h
      exact ⟨q, List.mem_cons_self q qs, by injection h⟩
    · rw [if_neg hq] at h
      obtain ⟨p, hp, hv⟩ := ih h
      exact ⟨p, List.mem_cons_of_mem q hp, hv⟩

/-- Membership through one insertion step of the display sort. -/
theorem mem_sortInsert {p q : String × Int} {l : List (String × Int)} :
    p ∈ sortInsert q l ↔ p = q ∨ p ∈ l := by
  induction l with
  | nil => simp [sortInsert]
  | cons r rs ih =>
    unfold sortInsert
    by_cases h : q.1 ≤ r.1
    · rw [if_pos h]; simp [List.mem_cons]
    · rw [if_neg h]
      simp only [List.mem_cons, ih]
      tauto

/-- The display sort is a permutation on membership. -/
theorem mem_sortByKey {p : String × Int} {l : List (String × Int)} :
    p ∈ sortByKey l ↔ p ∈ l := by
  induction l with
  | nil => simp [sortByKey]
  | cons q qs ih =>
    unfold sortByKey
    rw [mem_sortInsert]
    simp [ih]

/-- A deleted key does not appear in the inventory listing. -/
theorem not_listed_of_lookup_none {st : BotState} {k : String}
    (h : lookupQty st.inventory k = none) :
    k ∉ (inventory_pairs st).map Prod.fst := by
  intro hmem
  obtain ⟨p, hp, hk⟩ := List.mem_map.mp hmem
  have hp2 : p ∈ get_inventory st := mem_sortByKey.mp hp
  have hp3 : p ∈ st.inventory := List.mem_of_mem_filter hp2
  have h4 : k ∈ st.inventory.map Prod.fst := List.mem_map.mpr ⟨p, hp3, hk⟩
  have h5 := lookupQty_isSome_of_mem h4
  rw [h] at h5
  cases h5

-- ## Non-negativity preservation

/-- The empty inventory is non-negative. -/
theorem nonnegInv_nil : nonnegInv [] := by intro p hp; cases hp

/-- Setting a non-negative quantity preserves non-negativity. -/
theorem nonneg_setQty {l : List (String × Int)} {v : Int} (k : String)
    (h : nonnegInv l) (hv : 0 ≤ v) : nonnegInv (setQty l k v) := by
  induction l with
  | nil =>
    intro p hp
    simp only [setQty, List.mem_singleton] at hp
    subst hp; exact hv
  | cons q qs ih =>
    intro p hp
    unfold setQty at hp
    by_cases hq : q.1 = k
    · rw [if_pos hq] at hp
      cases List.mem_cons.mp hp with
      | inl e => subst e; exact hv
      | inr m => exact h p (List.mem_cons_of_mem q m)
    · rw [if_neg hq] at hp
      cases List.mem_cons.mp hp with
      | inl e => subst e; exact h p (List.mem_cons_self p qs)
      | inr m => exact ih (fun r hr => h r (List.mem_cons_of_mem q hr)) p m

/-- Deleting preserves non-negativity. -/
theorem nonneg_removeQty {l : List (String × Int)} (k : String)
    (h : nonnegInv l) : nonnegInv (removeQty l k) := by
  induction l with
  | nil => intro p hp; cases hp
  | cons q qs ih =>
    intro p hp
    unfold removeQty at hp
    by_cases hq : q.1 = k
    · rw [if_pos hq] at hp
      exact ih (fun r hr => h r (List.mem_cons_of_mem q hr)) p hp
    · rw [if_neg hq] at hp
      cases List.mem_cons.mp hp with
      | inl e => subst e; exact h p (List.mem_cons_self p qs)
      | inr m => exact ih (fun r hr => h r (List.mem_cons_of_mem q hr)) p m

/-- Stored quantities read back non-negative. -/
theorem nonneg_get {st : BotState} (h : nonnegInv st.inventory) (k : String) :
    0 ≤ get_inventory_item st k := by
  unfold get_inventory_item
  cases hl : lookupQty st.inventory k with
  | none => simp
  | some v =>
    simp only [Option.getD_some]
    obtain ⟨p, hp, hv⟩ := lookupQty_mem hl
    exact hv ▸ h p hp

/-- The join branch never touches the inventory collection. -/
theorem join_branch_inventory (a b : String) (st : BotState) :
    (join_branch a b st).2.inventory = st.inventory := by
  unfold join_branch
  split <;> rfl

/-- The leave branch never touches the inventory collection. -/
theorem leave_branch_inventory (a b : String) (st : BotState) :
    (leave_branch a b st).2.inventory = st.inventory := by
  unfold leave_branch
  split <;> rfl

/-- The broadcast branch never touches the inventory collection. -/
theorem broadcast_branch_inventory (l : List Char) (a b : String) (st : BotState) :
    (broadcast_branch l a b st).2.inventory = st.inventory := by
  unfold broadcast_branch
  split <;> [rfl; split <;> rfl]

/-- Reading a stored quantity and adding a positive delta stays non-negative. -/
theorem get_add_nonneg {st : BotState} {k : String} {q : Int}
    (h : nonnegInv st.inventory) (hq : ¬ q ≤ 0) : 0 ≤ get_inventory_item st k + q := by
  have := nonneg_get h k
  omega

/-- A decrement bounded by the stored quantity stays non-negative. -/
theorem get_sub_nonneg {st : BotState} {k : String} {q : Int}
    (hlt : ¬ get_inventory_item st k < q) : 0 ≤ get_inventory_item st k - q := by
  omega

/-- Reset keeps the non-negativity invariant. -/
theorem reset_branch_nonneg (a b : String) (st : BotState) (h : nonnegInv st.inventory) :
    nonnegInv (reset_branch a b st).2.inventory := by
  unfold reset_branch
  split
  · exact h
  · exact nonnegInv_nil

/-- Remove keeps the non-negativity invariant. -/
theorem remove_branch_nonneg (l : List Char) (a b : String) (st : BotState)
    (h : nonnegInv st.inventory) : nonnegInv (remove_branch l a b st).2.inventory := by
  unfold remove_branch
  split
  · exact h
  · split
    · exact h
    · split
      · exact nonneg_removeQty _ h
      · exact h

/-- Add keeps the non-negativity invariant. -/
theorem add_branch_nonneg (l : List Char) (a b : String) (st : BotState)
    (h : nonnegInv st.inventory) : nonnegInv (add_branch l a b st).2.inventory := by
  unfold add_branch
  split
  · exact h
  · split
    · exact h
    · split
      · exact h
      · exact nonneg_setQty _ h (get_add_nonneg h (by assumption))

/-- Sell keeps the non-negativity invariant. -/
theorem sell_branch_nonneg (l : List Char) (a b : String) (st : BotState)
    (h : nonnegInv st.inventory) : nonnegInv (sell_branch l a b st).2.inventory := by
  unfold sell_branch
  split
  · exact h
  · split
    · exact h
    · split
      · exact h
      · split
        · exact h
        · split
          · exact h
          · split
            · exact nonneg_removeQty _ h
            · exact nonneg_setQty _ h (get_sub_nonneg (by assumption))

/-- The initialize loop keeps the non-negativity invariant. -/
theorem init_loop_nonneg (segs : List (List Char)) :
    ∀ (st : BotState) (upd : List String), nonnegInv st.inventory →
      nonnegInv (initState (init_loop st upd segs)).inventory := by
  induction segs with
  | nil => intro st upd h; exact h
  | cons seg rest ih =>
    intro st upd h
    unfold init_loop
    split
    · exact ih st upd h
    · split
      · exact h
      · split
        · exact h
        · split
          · split
            · exact ih _ _ (nonneg_removeQty _ h)
            · exact ih st upd h
          · exact ih _ _ (nonneg_setQty _ h (by omega))

/-- The initialize branch keeps the non-negativity invariant. -/
theorem init_branch_nonneg (t : List Char) (a b : String) (st : BotState)
    (h : nonnegInv st.inventory) : nonnegInv (init_branch t a b st).2.inventory := by
  have hl := init_loop_nonneg (splitL ',' t) st [] h
  unfold init_branch
  split
  · rename_i st1 reply heq
    rw [heq] at hl
    exact hl
  · rename_i st1 upd heq
    rw [heq] at hl
    split
    · exact hl
    · exact hl

/-- One dispatched command keeps the non-negativity invariant. -/
theorem dispatch_nonneg (t : List Char) (s : String) (st : BotState)
    (h : nonnegInv st.inventory) : nonnegInv (dispatch t s st).2.inventory := by
  unfold dispatch
  by_cases h1 : t = "join".data
  · rw [if_pos h1, join_branch_inventory]; exact h
  rw [if_neg h1]
  by_cases h2 : t = "leave".data
  · rw [if_pos h2, leave_branch_inventory]; exact h
  rw [if_neg h2]
  by_cases h3 : is_group_member st s = false
  · rw [if_pos h3]; exact h
  rw [if_neg h3]
  by_cases h4 : t = "help".data
  · rw [if_pos h4]; exact h
  rw [if_neg h4]
  by_cases h5 : t = "members".data
  · rw [if_pos h5]; exact h
  rw [if_neg h5]
  by_cases h6 : startsWithL "broadcast ".data t = true
  · rw [if_pos h6, broadcast_branch_inventory]; exact h
  rw [if_neg h6]
  by_cases h7 : t = "reset".data
  · rw [if_pos h7]; exact reset_branch_nonneg _ _ _ h
  rw [if_neg h7]
  by_cases h8 : startsWithL "remove ".data t = true
  · rw [if_pos h8]; exact remove_branch_nonneg _ _ _ _ h
  rw [if_neg h8]
  by_cases h9 : t = "inventory".data
  · rw [if_pos h9]; exact h
  rw [if_neg h9]
  by_cases h10 : t = "history".data
  · rw [if_pos h10]; exact h
  rw [if_neg h10]
  by_cases h11 : startsWithL "add ".data t = true
  · rw [if_pos h11]; exact add_branch_nonneg _ _ _ _ h
  rw [if_neg h11]
  by_cases h12 : startsWithL "sell ".data t = true
  · rw [if_pos h12]; exact sell_branch_nonneg _ _ _ _ h
  rw [if_neg h12]
  by_cases h13 : containsChar '=' t = true
  · rw [if_pos h13]; exact init_branch_nonneg _ _ _ _ h
  rw [if_neg h13]
  exact h

/-- process_group_inventory_command keeps the non-negativity invariant. -/
theorem process_nonneg (msg sender : String) (st : BotState)
    (h : nonnegInv st.inventory) :
    nonnegInv (process_group_inventory_command msg sender st).2.inventory :=
  dispatch_nonneg _ _ _ h

-- ## Claim theorems

/-- C7: every stored inventory quantity is a non-negative integer, and the
invariant is preserved by every command: no reachable sequence of commands
(Add, Sell, Initialize, reset, remove, or anything else) produces a negative
quantity for any item. -/
theorem quantities_never_negative :
    ∀ (cmds : List (String × String)) (st : BotState),
      nonnegInv st.inventory → nonnegInv (run_commands cmds st).inventory := by
  intro cmds
  induction cmds with
  | nil => intro st h; exact h
  | cons c rest ih =>
    intro st h
    exact ih _ (process_nonneg c.1 c.2 st h)

/-- Witness for C7 at a concrete command sequence and state. -/
theorem quantities_never_negative_w :
    nonnegInv (run_commands [("add apple=2", "111"), ("sell apple=1", "111")] exEmpty).inventory :=
  quantities_never_negative [("add apple=2", "111"), ("sell apple=1", "111")] exEmpty
    (by intro p hp; cases hp)

/-- C4: a `join` from a sender who is already an active member returns the
already-a-member reply and leaves the whole state (membership table and
audit log included) unchanged. -/
theorem join_already_member_noop :
    ∀ (msg sender : String) (st : BotState),
      stripChars (lowerChars msg.data) = "join".data →
      is_group_member st sender = true →
      process_group_inventory_command msg sender st =
        ("✅ You\x27re already in the group!", st) := by
  intro msg sender st hmsg hm
  unfold process_group_inventory_command
  rw [hmsg]
  unfold dispatch
  rw [if_pos rfl]
  unfold join_branch
  rw [if_neg (by rw [hm]; simp)]

/-- Witness for C4: a literal second join against exSt. -/
theorem join_already_member_noop_w :
    process_group_inventory_command "join" "111" exSt =
      ("✅ You\x27re already in the group!", exSt) :=
  join_already_member_noop "join" "111" exSt (by decide) (by decide)

/-- C5: a sender who is not an active member gets the must-join refusal and an
unchanged state for every command other than join and leave, in particular for
every inventory-mutating command such as `add`. -/
theorem nonmember_gated :
    ∀ (msg sender : String) (st : BotState),
      stripChars (lowerChars msg.data) ≠ "join".data →
      stripChars (lowerChars msg.data) ≠ "leave".data →
      is_group_member st sender = false →
      process_group_inventory_command msg sender st =
        ("❌ You must join the group first. Send \x27join\x27 to participate.", st) := by
  intro msg sender st h1 h2 h3
  exact dispatch_gate _ sender st h1 h2 h3

/-- Witness for C5: a non-member issuing `add apple=1` against exSt. -/
theorem nonmember_gated_w :
    process_group_inventory_command "add apple=1" "999" exSt =
      ("❌ You must join the group first. Send \x27join\x27 to participate.", exSt) :=
  nonmember_gated "add apple=1" "999" exSt (by decide) (by decide) (by decide)

/-- C6 counterexample: a GET whose verify token equals the configured secret
but whose hub.mode is missing is answered 403, not with the challenge body. -/
theorem webhook_mode_required_cex :
    webhook_get (some "secret") none (some "secret") (some "test123") =
      ("Verification failed", 403) := rfl

/-- C6 (amended): when VERIFY_TOKEN is configured and non-empty, a GET
returns the challenge as body with 200 exactly when hub.mode is "subscribe"
and the supplied token matches, and every other mode/token combination
(mode missing or wrong, or token non-matching) is answered 403; an unset or
empty VERIFY_TOKEN always yields the configuration error with 500. -/
theorem webhook_verification_amended :
    ∀ (vt ch : String) (mode token : Option String),
      (vt ≠ "" →
        (mode = some "subscribe" → token = some vt →
          webhook_get (some vt) mode token (some ch) = (ch, 200))
        ∧ (¬(mode = some "subscribe" ∧ token = some vt) →
          webhook_get (some vt) mode token (some ch) = ("Verification failed", 403)))
      ∧ webhook_get none mode token (some ch) = ("VERIFY_TOKEN not configured", 500)
      ∧ webhook_get (some "") mode token (some ch) = ("VERIFY_TOKEN not configured", 500) := by
  intro vt ch mode token
  refine ⟨?_, rfl, rfl⟩
  intro hvt
  constructor
  · intro hm ht
    simp only [webhook_get]
    rw [if_neg hvt, if_pos ⟨hm, ht⟩]
  · intro hno
    simp only [webhook_get]
    rw [if_neg hvt, if_neg hno]

/-- Witness for C6's amended theorem at concrete values, covering the success
case, a wrong mode with a matching token, a non-matching token, and the
empty-string secret. -/
theorem webhook_verification_amended_w :
    webhook_get (some "secret") (some "subscribe") (some "secret") (some "test123") =
      ("test123", 200)
    ∧ webhook_get (some "secret") (some "other") (some "secret") (some "test123") =
      ("Verification failed", 403)
    ∧ webhook_get (some "secret") (some "subscribe") (some "wrong") (some "test123") =
      ("Verification failed", 403)
    ∧ webhook_get (some "") (some "subscribe") (some "") (some "test123") =
      ("VERIFY_TOKEN not configured", 500) :=
  ⟨((webhook_verification_amended "secret" "test123" (some "subscribe") (some "secret")).1
      (by decide)).1 rfl rfl,
    ((webhook_verification_amended "secret" "test123" (some "other") (some "secret")).1
      (by decide)).2 (by decide),
    ((webhook_verification_amended "secret" "test123" (some "subscribe") (some "wrong")).1
      (by decide)).2 (by decide),
    (webhook_verification_amended "" "test123" (some "subscribe") (some "")).2.2⟩

/-- C10: the privileged commands reset, remove and broadcast issued by an
active member who is not on the admin allow-list produce an admins-only
refusal with an unchanged state; and a sender who has not joined (admin or
not) is stopped by the membership gate first, because that gate precedes the
admin check in the chain. -/
theorem privileged_guard :
    ∀ (msg sender : String) (st : BotState),
      (is_group_member st sender = true → is_group_admin sender = false →
        (stripChars (lowerChars msg.data) = "reset".data →
          process_group_inventory_command msg sender st =
            ("❌ Only admins can reset inventory", st))
        ∧ (startsWithL "remove ".data (stripChars (lowerChars msg.data)) = true →
          process_group_inventory_command msg sender st =
            ("❌ Only admins can remove items", st))
        ∧ (startsWithL "broadcast ".data (stripChars (lowerChars msg.data)) = true →
          process_group_inventory_command msg sender st =
            ("❌ Only admins can broadcast messages", st)))
      ∧ (is_group_member st sender = false →
          stripChars (lowerChars msg.data) ≠ "join".data →
          stripChars (lowerChars msg.data) ≠ "leave".data →
          process_group_inventory_command msg sender st =
            ("❌ You must join the group first. Send \x27join\x27 to participate.", st)) := by
  intro msg sender st
  constructor
  · intro hm hadm
    refine ⟨?_, ?_, ?_⟩
    · intro ht
      unfold process_group_inventory_command
      rw [ht, dispatch_reset_eq sender st hm]
      unfold reset_branch
      rw [if_pos hadm]
    · intro ht
      unfold process_group_inventory_command
      rw [dispatch_remove_eq _ sender st hm ht]
      unfold remove_branch
      rw [if_pos hadm]
    · intro ht
      unfold process_group_inventory_command
      rw [dispatch_broadcast_eq _ sender st hm ht]
      unfold broadcast_branch
      rw [if_pos hadm]
  · intro h3 h1 h2
    exact dispatch_gate _ sender st h1 h2 h3

/-- Witness for C10: the member non-admin "111" is refused all three
privileged commands, and the configured admin is gated while not a member. -/
theorem privileged_guard_w :
    process_group_inventory_command "reset" "111" exSt =
      ("❌ Only admins can reset inventory", exSt)
    ∧ process_group_inventory_command "remove apple" "111" exSt =
      ("❌ Only admins can remove items", exSt)
    ∧ process_group_inventory_command "broadcast hi" "111" exSt =
      ("❌ Only admins can broadcast messages", exSt)
    ∧ process_group_inventory_command "reset" "9779816034951" exSt =
      ("❌ You must join the group first. Send \x27join\x27 to participate.", exSt) :=
  ⟨((privileged_guard "reset" "111" exSt).1 (by decide) (by decide)).1 (by decide),
   ((privileged_guard "remove apple" "111" exSt).1 (by decide) (by decide)).2.1 (by decide),
   ((privileged_guard "broadcast hi" "111" exSt).1 (by decide) (by decide)).2.2 (by decide),
   (privileged_guard "reset" "9779816034951" exSt).2 (by decide) (by decide) (by decide)⟩

/-- C1: a sell of a single parsed pair whose item is absent, or whose stock is
below the requested positive quantity, ends in the corresponding error reply
("not found", resp. "Not enough item. Available: n") with a completely
unchanged state; and the multi-item sell "sell apple=2,banana=5" against
stock apple 5, banana 2 fails whole (the quantity text does not parse as an
int) and leaves apple at 5. -/
theorem sell_insufficient_rejected :
    (∀ (st : BotState) (sender : String) (item_data ri rq : List Char) (q : Int),
       splitOnceL '=' item_data = some (ri, rq) →
       pyIntL rq = some q → 0 < q →
       get_inventory_item st (String.mk (stripChars ri)) = 0 →
       sell_branch item_data sender (sender_display_name sender) st =
         ("❌ " ++ String.mk (stripChars ri) ++ " not found in inventory", st))
  ∧ (∀ (st : BotState) (sender : String) (item_data ri rq : List Char) (q : Int),
       splitOnceL '=' item_data = some (ri, rq) →
       pyIntL rq = some q → 0 < q →
       0 < get_inventory_item st (String.mk (stripChars ri)) →
       get_inventory_item st (String.mk (stripChars ri)) < q →
       sell_branch item_data sender (sender_display_name sender) st =
         ("❌ Not enough " ++ String.mk (stripChars ri) ++ ". Available: "
            ++ toString (get_inventory_item st (String.mk (stripChars ri))), st))
  ∧ (process_group_inventory_command "sell apple=2,banana=5" "111" exSt =
       ("❌ Invalid quantity. Use numbers only.", exSt)
     ∧ get_inventory_item
         (process_group_inventory_command "sell apple=2,banana=5" "111" exSt).2 "apple" = 5) := by
  refine ⟨?_, ?_, rfl, rfl⟩
  · intro st sender item_data ri rq q hsp hint hq h0
    simp only [sell_branch, hsp, hint]
    rw [if_neg (by omega : ¬ q ≤ 0), if_pos h0]
  · intro st sender item_data ri rq q hsp hint hq hpos hlt
    simp only [sell_branch, hsp, hint]
    rw [if_neg (by omega : ¬ q ≤ 0),
        if_neg (by omega : ¬ get_inventory_item st (String.mk (stripChars ri)) = 0),
        if_pos hlt]

/-- Witness for C1 at concrete sells against exSt. -/
theorem sell_insufficient_rejected_w :
    sell_branch "pear=1".data "111" (sender_display_name "111") exSt =
      ("❌ pear not found in inventory", exSt)
    ∧ sell_branch "apple=7".data "111" (sender_display_name "111") exSt =
      ("❌ Not enough apple. Available: 5", exSt) :=
  ⟨sell_insufficient_rejected.1 exSt "111" "pear=1".data "pear".data "1".data 1
     (by decide) (by decide) (by decide) (by decide),
   sell_insufficient_rejected.2.1 exSt "111" "apple=7".data "apple".data "7".data 7
     (by decide) (by decide) (by decide) (by decide) (by decide)⟩

/-- C3: a successful sell whose positive requested quantity equals the current
stock deletes the item's document from the store, and the item no longer
appears in the rows that a subsequent `inventory` reply lists. -/
theorem sell_to_zero_removes_item :
    ∀ (st : BotState) (sender : String) (item_data ri rq : List Char) (q : Int),
      splitOnceL '=' item_data = some (ri, rq) →
      pyIntL rq = some q → 0 < q →
      get_inventory_item st (String.mk (stripChars ri)) = q →
      lookupQty (sell_branch item_data sender (sender_display_name sender) st).2.inventory
          (String.mk (stripChars ri)) = none
      ∧ String.mk (stripChars ri) ∉
          (inventory_pairs
            (sell_branch item_data sender (sender_display_name sender) st).2).map Prod.fst := by
  intro st sender item_data ri rq q hsp hint hq hcur
  simp only [sell_branch, hsp, hint]
  rw [if_neg (by omega : ¬ q ≤ 0),
      if_neg (by omega : ¬ get_inventory_item st (String.mk (stripChars ri)) = 0),
      if_neg (by omega : ¬ get_inventory_item st (String.mk (stripChars ri)) < q),
      if_pos (by omega : get_inventory_item st (String.mk (stripChars ri)) - q = 0)]
  refine ⟨lookupQty_removeQty st.inventory (String.mk (stripChars ri)), ?_⟩
  exact not_listed_of_lookup_none (lookupQty_removeQty st.inventory (String.mk (stripChars ri)))

/-- Witness for C3: selling the full banana stock of exSt. -/
theorem sell_to_zero_removes_item_w :
    lookupQty (sell_branch "banana=2".data "111" (sender_display_name "111") exSt).2.inventory
        "banana" = none
    ∧ "banana" ∉
        (inventory_pairs
          (sell_branch "banana=2".data "111" (sender_display_name "111") exSt).2).map Prod.fst := by
  have h := sell_to_zero_removes_item exSt "111" "banana=2".data "banana".data "2".data 2
    (by decide) (by decide) (by decide) (by decide)
  exact h

/-- C2 counterexample: "add apple=3,banana=2" contains two pairs that are
valid under the spec's comma-separated grammar, yet the command fails whole
with the invalid-quantity reply and neither pair is applied. -/
theorem add_multi_pair_fails_cex :
    process_group_inventory_command "add apple=3,banana=2" "111" exEmpty =
      ("❌ Invalid quantity. Use numbers only.", exEmpty)
    ∧ get_inventory_item
        (process_group_inventory_command "add apple=3,banana=2" "111" exEmpty).2 "banana" = 0 :=
  ⟨rfl, rfl⟩

/-- C2 (amended): an input whose normalised text starts with "add " is handled
by the add branch, which treats the stripped remainder as one item=qty pair
split at the first "=": a missing "=" yields the format hint, a quantity that
int() rejects yields the invalid-quantity reply, a non-positive quantity
yields the must-be-positive reply (state unchanged in all three), and
otherwise the single pair is applied with an audit record. -/
theorem add_single_pair_semantics :
    (∀ (msg sender : String) (st : BotState),
       is_group_member st sender = true →
       startsWithL "add ".data (stripChars (lowerChars msg.data)) = true →
       process_group_inventory_command msg sender st =
         add_branch (stripChars ((stripChars (lowerChars msg.data)).drop 4)) sender
           (sender_display_name sender) st)
  ∧ (∀ (st : BotState) (sender : String) (item_data : List Char),
       splitOnceL '=' item_data = none →
       add_branch item_data sender (sender_display_name sender) st =
         ("❌ Format: add apple=5", st))
  ∧ (∀ (st : BotState) (sender : String) (item_data ri rq : List Char),
       splitOnceL '=' item_data = some (ri, rq) →
       pyIntL rq = none →
       add_branch item_data sender (sender_display_name sender) st =
         ("❌ Invalid quantity. Use numbers only.", st))
  ∧ (∀ (st : BotState) (sender : String) (item_data ri rq : List Char) (q : Int),
       splitOnceL '=' item_data = some (ri, rq) →
       pyIntL rq = some q → q ≤ 0 →
       add_branch item_data sender (sender_display_name sender) st =
         ("❌ Quantity must be positive", st))
  ∧ (∀ (st : BotState) (sender : String) (item_data ri rq : List Char) (q : Int),
       splitOnceL '=' item_data = some (ri, rq) →
       pyIntL rq = some q → 0 < q →
       add_branch item_data sender (sender_display_name sender) st =
         ("✅ Added " ++ toString q ++ " " ++ String.mk (stripChars ri)
             ++ "(s)\n📦 New quantity: "
             ++ toString (get_inventory_item st (String.mk (stripChars ri)) + q),
           add_inventory_update
             (update_inventory st (String.mk (stripChars ri))
               (get_inventory_item st (String.mk (stripChars ri)) + q))
             ⟨sender, sender_display_name sender, "add", some (String.mk (stripChars ri)), some q,
               some ("Added " ++ toString q ++ " " ++ String.mk (stripChars ri) ++ "(s)")⟩)) := by
  refine ⟨?_, ?_, ?_, ?_, ?_⟩
  · intro msg sender st hm hpre
    unfold process_group_inventory_command
    exact dispatch_add_eq _ sender st hm hpre
  · intro st sender item_data hsp
    simp only [add_branch, hsp]
  · intro st sender item_data ri rq hsp hint
    simp only [add_branch, hsp, hint]
  · intro st sender item_data ri rq q hsp hint hq
    simp only [add_branch, hsp, hint]
    rw [if_pos hq]
  · intro st sender item_data ri rq q hsp hint hq
    simp only [add_branch, hsp, hint]
    rw [if_neg (by omega : ¬ q ≤ 0)]

/-- Witness for C2's amended theorem at concrete adds. -/
theorem add_single_pair_semantics_w :
    process_group_inventory_command "add apple=3" "111" exEmpty =
      add_branch (stripChars ((stripChars (lowerChars "add apple=3".data)).drop 4)) "111"
        (sender_display_name "111") exEmpty
    ∧ add_branch "apple".data "111" (sender_display_name "111") exEmpty =
      ("❌ Format: add apple=5", exEmpty)
    ∧ add_branch "apple=x".data "111" (sender_display_name "111") exEmpty =
      ("❌ Invalid quantity. Use numbers only.", exEmpty)
    ∧ add_branch "apple=0".data "111" (sender_display_name "111") exEmpty =
      ("❌ Quantity must be positive", exEmpty)
    ∧ add_branch "apple=3".data "111" (sender_display_name "111") exEmpty =
      ("✅ Added 3 apple(s)\n📦 New quantity: 3",
        add_inventory_update (update_inventory exEmpty "apple" 3)
          ⟨"111", sender_display_name "111", "add", some "apple", some 3,
            some "Added 3 apple(s)"⟩) :=
  ⟨add_single_pair_semantics.1 "add apple=3" "111" exEmpty (by decide) (by decide),
   add_single_pair_semantics.2.1 exEmpty "111" "apple".data (by decide),
   add_single_pair_semantics.2.2.1 exEmpty "111" "apple=x".data "apple".data "x".data
     (by decide) (by decide),
   add_single_pair_semantics.2.2.2.1 exEmpty "111" "apple=0".data "apple".data "0".data 0
     (by decide) (by decide) (by decide),
   add_single_pair_semantics.2.2.2.2 exEmpty "111" "apple=3".data "apple".data "3".data 3
     (by decide) (by decide) (by decide)⟩

/-- C9 counterexample: in the bulk initialize "x=1, y=-2, z=3" the negative
pair is not dropped silently - the command stops with an error reply naming
y, the earlier pair x stayed applied and the later pair z was never applied. -/
theorem negative_quantity_cex :
    process_group_inventory_command "x=1, y=-2, z=3" "111" exEmpty =
      ("❌ Quantity for y must be non-negative",
        { inventory := [("x", 1)], members := [exMember], updates := [] })
    ∧ get_inventory_item
        (process_group_inventory_command "x=1, y=-2, z=3" "111" exEmpty).2 "z" = 0 :=
  ⟨rfl, rfl⟩

/-- C9 (amended): a non-positive quantity in the add branch produces the
must-be-positive error reply with nothing applied, and a negative quantity in
the initialize loop stops the loop with an error reply naming the item,
keeping the state built from the earlier pairs and never reaching the later
ones. -/
theorem negative_quantity_error_semantics :
    (∀ (st : BotState) (sender : String) (item_data ri rq : List Char) (q : Int),
       splitOnceL '=' item_data = some (ri, rq) →
       pyIntL rq = some q → q ≤ 0 →
       add_branch item_data sender (sender_display_name sender) st =
         ("❌ Quantity must be positive", st))
  ∧ (∀ (st : BotState) (upd : List String) (seg : List Char) (rest : List (List Char))
       (ri rq : List Char) (q : Int),
       splitOnceL '=' seg = some (ri, rq) →
       pyIntL rq = some q → q < 0 →
       init_loop st upd (seg :: rest) =
         .err st ("❌ Quantity for " ++ String.mk (stripChars ri) ++ " must be non-negative")) := by
  constructor
  · intro st sender item_data ri rq q hsp hint hq
    simp only [add_branch, hsp, hint]
    rw [if_pos hq]
  · intro st upd seg rest ri rq q hsp hint hq
    simp only [init_loop, hsp, hint]
    rw [if_pos hq]

/-- Witness for C9's amended theorem at concrete inputs. -/
theorem negative_quantity_error_semantics_w :
    add_branch "apple=-2".data "111" (sender_display_name "111") exSt =
      ("❌ Quantity must be positive", exSt)
    ∧ init_loop exSt [] ["y=-2".data, "z=3".data] =
      .err exSt "❌ Quantity for y must be non-negative" :=
  ⟨negative_quantity_error_semantics.1 exSt "111" "apple=-2".data "apple".data "-2".data (-2)
     (by decide) (by decide) (by decide),
   negative_quantity_error_semantics.2 exSt [] "y=-2".data ["z=3".data] "y".data "-2".data (-2)
     (by decide) (by decide) (by decide)⟩

/-- C8: for a member sender, an input that literally starts with "add " or
"sell " and contains "=" is executed by the add branch, resp. the sell
branch, because those prefix tests come before the generic "=" detection in
the chain - it is never handled by init_branch. -/
theorem add_sell_checked_first :
    (∀ (msg sender : String) (st : BotState),
       is_group_member st sender = true →
       startsWithL "add ".data msg.data = true →
       containsChar '=' msg.data = true →
       process_group_inventory_command msg sender st =
         add_branch (stripChars ((stripChars (lowerChars msg.data)).drop 4)) sender
           (sender_display_name sender) st)
  ∧ (∀ (msg sender : String) (st : BotState),
       is_group_member st sender = true →
       startsWithL "sell ".data msg.data = true →
       containsChar '=' msg.data = true →
       process_group_inventory_command msg sender st =
         sell_branch (stripChars ((stripChars (lowerChars msg.data)).drop 5)) sender
           (sender_display_name sender) st) := by
  constructor
  · intro msg sender st hm hpre hct
    obtain ⟨u, hu⟩ := startsWithL_ex hpre
    have hmem : '=' ∈ u := by
      have h1 := containsChar_mem hct
      rw [hu] at h1
      cases List.mem_append.mp h1 with
      | inl h => exact absurd h (by decide)
      | inr h => exact h
    have hwit : ∃ c ∈ lowerChars u, pyIsSpace c = false := by
      refine ⟨'=', ?_, by decide⟩
      exact List.mem_map_of_mem Char.toLower hmem
    have hnorm := normalize_pre 'a' "dd ".data msg u (by rw [hu]) (by decide) (by decide) hwit
    have hpre2 : startsWithL "add ".data (stripChars (lowerChars msg.data)) = true := by
      rw [hnorm]
      exact startsWithL_self_append _ _
    unfold process_group_inventory_command
    exact dispatch_add_eq _ sender st hm hpre2
  · intro msg sender st hm hpre hct
    obtain ⟨u, hu⟩ := startsWithL_ex hpre
    have hmem : '=' ∈ u := by
      have h1 := containsChar_mem hct
      rw [hu] at h1
      cases List.mem_append.mp h1 with
      | inl h => exact absurd h (by decide)
      | inr h => exact h
    have hwit : ∃ c ∈ lowerChars u, pyIsSpace c = false := by
      refine ⟨'=', ?_, by decide⟩
      exact List.mem_map_of_mem Char.toLower hmem
    have hnorm := normalize_pre 's' "ell ".data msg u (by rw [hu]) (by decide) (by decide) hwit
    have hpre2 : startsWithL "sell ".data (stripChars (lowerChars msg.data)) = true := by
      rw [hnorm]
      exact startsWithL_self_append _ _
    unfold process_group_inventory_command
    exact dispatch_sell_eq _ sender st hm hpre2

/-- Witness for C8 at concrete add and sell inputs. -/
theorem add_sell_checked_first_w :
    process_group_inventory_command "add apple=2" "111" exSt =
      add_branch (stripChars ((stripChars (lowerChars "add apple=2".data)).drop 4)) "111"
        (sender_display_name "111") exSt
    ∧ process_group_inventory_command "sell apple=2" "111" exSt =
      sell_branch (stripChars ((stripChars (lowerChars "sell apple=2".data)).drop 5)) "111"
        (sender_display_name "111") exSt :=
  ⟨add_sell_checked_first.1 "add apple=2" "111" exSt (by decide) (by decide) (by decide),
   add_sell_checked_first.2 "sell apple=2" "111" exSt (by decide) (by decide) (by decide)⟩
